import Mathlib

/-!
Verification of the Slack search MCP pipeline (tarantella-mcps).

Shallow embedding of the core pipeline from the TypeScript source:
the input validator schemas (`searchMessagesSchema`, `searchInChannelSchema`),
the query translator (`SlackClient.buildSearchQuery`), the gateway call
argument construction and the result normalizer (`SlackClient.executeSearch`),
and the handler-side field translation (`createSearchMessagesHandler`).

JavaScript conventions modelled explicitly:
an optional string field (`field?: string`) is an `Option String`, and its
JS truthiness test (`if (params.field)`) holds iff the field is supplied and
non-empty; an optional boolean (`field?: boolean`) is an `Option Bool`, truthy
iff `some true`; `x ?? d` (nullish coalescing, which treats `null` and
`undefined` alike) is modelled by `Option.getD` / `jsCoalesce`.
-/

namespace Tarantella

/-- JS truthiness of an optional string (`undefined` and the empty string are
falsy, every other string is truthy). -/
def strTruthy : Option String → Bool
  | none => false
  | some s => s ≠ ""

/-- JS truthiness of an optional boolean (`undefined` and `false` are falsy). -/
def boolTruthy : Option Bool → Bool
  | none => false
  | some b => b

/-- Value of a raw-match string field as delivered by the provider: the field
may be absent (`undefined`), `null`, or a string. -/
inductive JsStrVal where
  | absent
  | nullv
  | str (s : String)
deriving DecidableEq, Repr

/-- JS nullish coalescing `v ?? d` on a raw string field: both `undefined` and
`null` fall back to the default. -/
def jsCoalesce (v : JsStrVal) (d : String) : String :=
  match v with
  | .absent => d
  | .nullv => d
  | .str s => s

/-- Whether a raw string field is nullish (`undefined` or `null`). -/
def JsStrVal.isNullish : JsStrVal → Bool
  | .absent => true
  | .nullv => true
  | .str _ => false

/-- The `channel` field of a raw match as delivered by the provider: absent
(`undefined`), `null`, a bare string identifier, or an object whose `id`
property may itself be missing or null (`obj none`). -/
inductive RawChannel where
  | absent
  | nullv
  | str (s : String)
  | obj (id : Option String)
deriving DecidableEq, Repr

/-- JS `typeof v === 'object'`: true for `null` and for objects, false for
strings and `undefined`. -/
def RawChannel.typeofIsObject : RawChannel → Bool
  | .absent => false
  | .nullv => true
  | .str _ => false
  | .obj _ => true

/-- JS `v === null`. -/
def RawChannel.isNull : RawChannel → Bool
  | .nullv => true
  | _ => false

/-- Whether a raw channel field is nullish (`undefined` or `null`). -/
def RawChannel.isNullish : RawChannel → Bool
  | .absent => true
  | .nullv => true
  | _ => false

/-- One raw match object from the provider envelope
(`match.text`, `match.user`, `match.channel`, `match.ts`); each field may
independently be present, absent, or null. -/
structure RawMatch where
  text : JsStrVal := .absent
  user : JsStrVal := .absent
  channel : RawChannel := .absent
  ts : JsStrVal := .absent
deriving DecidableEq, Repr

/-- Canonical result record, `SlackMessage` from `shared/types.ts`: every
field is a plain `String`, so by type it can never hold `null`/`undefined`. -/
structure SlackMessage where
  text : String
  author : String
  channel : String
  timestamp : String
deriving DecidableEq, Repr

/-- `SlackSearchParams` from `shared/types.ts`: the internal Filter Model. -/
structure SlackSearchParams where
  query : String
  limit : Option Int := none
  cursor : Option String := none
  fromDate : Option String := none
  toDate : Option String := none
  userId : Option String := none
  hasReactions : Option Bool := none
  hasThreads : Option Bool := none
deriving DecidableEq, Repr

/-- `SlackChannelSearchParams` from `shared/types.ts`: the Filter Model of the
channel-scoped tool, extending `SlackSearchParams` with a required channel. -/
structure SlackChannelSearchParams extends SlackSearchParams where
  channelId : String
deriving DecidableEq, Repr

/-- `SlackSearchResult` from `shared/types.ts`: `nextCursor?: string` is an
`Option String`, `none` meaning the key is absent from the object. -/
structure SlackSearchResult where
  results : List SlackMessage
  nextCursor : Option String := none
deriving DecidableEq, Repr

/-- Embedding of `SlackClient.buildSearchQuery` (slack-client service, lines
59–82): sequential conditional string appends, one per JS-truthy filter, in
source order; operands are concatenated verbatim with no escaping. -/
def buildSearchQuery (params : SlackSearchParams) (channelId : Option String := none) : String :=
  let query := params.query
  let query := if strTruthy params.fromDate then query ++ " after:" ++ params.fromDate.getD "" else query
  let query := if strTruthy params.toDate then query ++ " before:" ++ params.toDate.getD "" else query
  let query := if strTruthy params.userId then query ++ " from:" ++ params.userId.getD "" else query
  let query := if boolTruthy params.hasReactions then query ++ " has:reaction" else query
  let query := if boolTruthy params.hasThreads then query ++ " has:thread" else query
  let query := if strTruthy channelId then query ++ " in:" ++ channelId.getD "" else query
  query

/-- Clause list written from the spec's words (§4.2): one space-prefixed
clause per present filter, in the fixed order `after` < `before` < `from` <
`has:reaction` < `has:thread` < `in`; presence of a string operand means
supplied and non-empty (the truthiness test §4.2 calls "present"), and a
boolean filter is present iff explicitly `true`. -/
def specClauses (params : SlackSearchParams) (channelId : Option String) : List String :=
  (if strTruthy params.fromDate then [" after:" ++ params.fromDate.getD ""] else []) ++
  (if strTruthy params.toDate then [" before:" ++ params.toDate.getD ""] else []) ++
  (if strTruthy params.userId then [" from:" ++ params.userId.getD ""] else []) ++
  (if boolTruthy params.hasReactions then [" has:reaction"] else []) ++
  (if boolTruthy params.hasThreads then [" has:thread"] else []) ++
  (if strTruthy channelId then [" in:" ++ channelId.getD ""] else [])

/-- Query Translator as the spec states it: the literal query text followed by
the concatenation of the fixed-order clause list. -/
def specTranslate (params : SlackSearchParams) (channelId : Option String) : String :=
  String.join ([params.query] ++ specClauses params channelId)

/-- Raw, possibly-extra-laden payload arriving at a tool schema, with each
known field at the value type the scenario space exercises (`limit` as a
rational so non-integer JS numbers are representable) and `extra` the names of
unrecognized keys present in the payload. -/
structure RawPayload where
  query : Option String := none
  limit : Option ℚ := none
  cursor : Option String := none
  from_date : Option String := none
  to_date : Option String := none
  user_id : Option String := none
  has_reactions : Option Bool := none
  has_threads : Option Bool := none
  channel_id : Option String := none
  extra : List String := []
deriving DecidableEq, Repr

/-- Validated output of `searchMessagesSchema` (`SearchMessagesInput`):
unrecognized keys are stripped, `limit` is an integer. -/
structure SearchMessagesInput where
  query : String
  limit : Option Int := none
  cursor : Option String := none
  from_date : Option String := none
  to_date : Option String := none
  user_id : Option String := none
  has_reactions : Option Bool := none
  has_threads : Option Bool := none
deriving DecidableEq, Repr

/-- Validated output of `searchInChannelSchema` (`SearchInChannelInput`). -/
structure SearchInChannelInput extends SearchMessagesInput where
  channel_id : String
deriving DecidableEq, Repr

/-- Embedding of the zod `limit` rule
(`z.number().int().min(1).max(100).optional()`): absent is accepted; a present
number must be an integer between 1 and 100. -/
def validLimit : Option ℚ → Bool
  | none => true
  | some q => q.den = 1 ∧ 1 ≤ q ∧ q ≤ 100

/-- Embedding of `searchMessagesSchema.safeParse`: `query` required with
minimum length 1; `limit` optional integer in [1,100]; the remaining fields
optional with no constraint beyond type; unrecognized keys are ignored and
stripped (zod object default strip mode). `none` is a structured rejection. -/
def parseSearchMessages (p : RawPayload) : Option SearchMessagesInput :=
  match p.query with
  | none => none
  | some q =>
    if q.length < 1 then none
    else if validLimit p.limit then
      some { query := q, limit := p.limit.map Rat.num, cursor := p.cursor,
             from_date := p.from_date, to_date := p.to_date, user_id := p.user_id,
             has_reactions := p.has_reactions, has_threads := p.has_threads }
    else none

/-- Embedding of `searchInChannelSchema.safeParse`: the same rules plus
`channel_id` required with minimum length 1. -/
def parseSearchInChannel (p : RawPayload) : Option SearchInChannelInput :=
  match parseSearchMessages p with
  | none => none
  | some base =>
    match p.channel_id with
    | none => none
    | some cid => if cid.length < 1 then none else some { base with channel_id := cid }

/-- Embedding of the field translation in `createSearchMessagesHandler`: each
snake_case input field is copied to the camelCase Filter Model key iff it is
not `undefined` (the conditional spreads), so presence is preserved exactly. -/
def toSlackSearchParams (input : SearchMessagesInput) : SlackSearchParams :=
  { query := input.query, limit := input.limit, cursor := input.cursor,
    fromDate := input.from_date, toDate := input.to_date, userId := input.user_id,
    hasReactions := input.has_reactions, hasThreads := input.has_threads }

/-- Embedding of the field translation in `createSearchInChannelHandler`. -/
def toSlackChannelSearchParams (input : SearchInChannelInput) : SlackChannelSearchParams :=
  { toSlackSearchParams input.toSearchMessagesInput with channelId := input.channel_id }

/-- Argument object of the outbound `client.search.messages` call:
`{query, count, ...(cursor && {cursor})}`; the `cursor` key is present iff the
spread fired, i.e. iff the supplied cursor was truthy. -/
structure SearchApiArgs where
  query : String
  count : Int
  cursor : Option String := none
deriving DecidableEq, Repr

/-- Embedding of the request side of `SlackClient.executeSearch` (lines
35–39): `count: limit ?? DEFAULT_LIMIT` with `DEFAULT_LIMIT = 20`, and
`...(cursor && { cursor })` omitting the key for an absent or empty cursor. -/
def executeSearchArgs (query : String) (limit : Option Int) (cursor : Option String) : SearchApiArgs :=
  { query := query, count := limit.getD 20,
    cursor := if strTruthy cursor then cursor else none }

/-- Request issued by `SlackClient.searchMessages`: the translated query with
no channel scope, plus the caller's limit and cursor. -/
def searchMessagesRequest (params : SlackSearchParams) : SearchApiArgs :=
  executeSearchArgs (buildSearchQuery params none) params.limit params.cursor

/-- Request issued by `SlackClient.searchInChannel`: the translated query with
the channel scope appended. -/
def searchInChannelRequest (params : SlackChannelSearchParams) : SearchApiArgs :=
  executeSearchArgs (buildSearchQuery params.toSlackSearchParams (some params.channelId))
    params.limit params.cursor

/-- The `messages` member of the provider envelope; its `matches` collection
may be absent. -/
structure MessagesField where
  «matches» : Option (List RawMatch) := none
deriving DecidableEq, Repr

/-- The `response_metadata` member of the provider envelope. -/
structure ResponseMetadata where
  next_cursor : Option String := none
deriving DecidableEq, Repr

/-- Raw provider envelope as consumed by `executeSearch`: success flag,
optional `messages` carrier, optional `response_metadata`. -/
structure SearchResponse where
  ok : Bool
  messages : Option MessagesField := none
  response_metadata : Option ResponseMetadata := none
deriving DecidableEq, Repr

/-- JS evaluation of `c.id` on the channel value: throws a `TypeError` on
`null` and `undefined`, yields `undefined` on a bare string (strings have no
`id` property), and yields the stored property on an object. -/
def jsGetId : RawChannel → Except String (Option String)
  | .nullv => .error "TypeError: cannot read id of null"
  | .absent => .error "TypeError: cannot read id of undefined"
  | .str _ => .ok none
  | .obj id => .ok id

/-- JS evaluation of the channel expression at slack-client line 49–50:
`typeof match.channel === 'object' && match.channel !== null
  ? (match.channel.id ?? '') : ''`, with property access modelled so that an
unguarded read on a nullish value would surface as an error. -/
def normalizeChannelJs (c : RawChannel) : Except String String :=
  if c.typeofIsObject ∧ ¬ c.isNull then
    (jsGetId c).map (fun id => id.getD "")
  else
    .ok ""

/-- Total value of the channel expression: the guard in the source makes the
nullish cases unreachable, so the extraction reduces to this function
(`normalize_channel_never_throws` proves the agreement). -/
def normalizeChannelTotal (c : RawChannel) : String :=
  match c with
  | .obj id => id.getD ""
  | _ => ""

/-- JS evaluation of one element of the `matches.map` at slack-client lines
46–52, building the canonical record field by field. -/
def normalizeMatchJs (m : RawMatch) : Except String SlackMessage := do
  let channel ← normalizeChannelJs m.channel
  .ok { text := jsCoalesce m.text "", author := jsCoalesce m.user "",
        channel := channel, timestamp := jsCoalesce m.ts "" }

/-- Total mapping of one raw match to the canonical record. -/
def normalizeMatchTotal (m : RawMatch) : SlackMessage :=
  { text := jsCoalesce m.text "", author := jsCoalesce m.user "",
    channel := normalizeChannelTotal m.channel, timestamp := jsCoalesce m.ts "" }

/-- Embedding of the response side of `SlackClient.executeSearch` (lines
41–56): failure or missing `messages` short-circuits to `{results: []}`;
otherwise map each match, then attach `nextCursor` only when the envelope's
`response_metadata?.next_cursor` is truthy. -/
def executeSearch (response : SearchResponse) : SlackSearchResult :=
  if response.ok ∧ response.messages.isSome then
    match response.messages with
    | none => { results := [] }
    | some msgs =>
      let ms := msgs.«matches».getD []
      let results := ms.map normalizeMatchTotal
      let nextCursor := response.response_metadata.bind ResponseMetadata.next_cursor
      if strTruthy nextCursor then { results := results, nextCursor := nextCursor }
      else { results := results }
  else { results := [] }

/-- Keys of the serialized Canonical Result Set object: the source builds
`nextCursor ? { results, nextCursor } : { results }`, and `JSON.stringify`
emits exactly the keys of that object, so the `nextCursor` key exists iff the
field is populated. -/
def resultJsonKeys (r : SlackSearchResult) : List String :=
  match r.nextCursor with
  | some _ => ["results", "nextCursor"]
  | none => ["results"]

/-- Query text after the three string filters (`after`, `before`, `from`) have
been appended: the state of `buildSearchQuery`'s accumulator just before the
`has:reaction` check. -/
def queryPrefix3 (params : SlackSearchParams) : String :=
  let query := params.query
  let query := if strTruthy params.fromDate then query ++ " after:" ++ params.fromDate.getD "" else query
  let query := if strTruthy params.toDate then query ++ " before:" ++ params.toDate.getD "" else query
  if strTruthy params.userId then query ++ " from:" ++ params.userId.getD "" else query

/-- Clauses `buildSearchQuery` appends after the `has:reaction` clause. -/
def suffixAfterReaction (params : SlackSearchParams) (channelId : Option String) : String :=
  (if boolTruthy params.hasThreads then " has:thread" else "") ++
  (if strTruthy channelId then " in:" ++ channelId.getD "" else "")

/-- Clauses `buildSearchQuery` appends after the `has:thread` clause. -/
def suffixAfterThread (channelId : Option String) : String :=
  if strTruthy channelId then " in:" ++ channelId.getD "" else ""

/-- A concrete non-integer JS number (50.5), for exercising the zod `int`
rule. -/
def nonIntegerLimit : ℚ := ⟨101, 2, by decide, by decide⟩

/-- A failed provider envelope that nonetheless carries a continuation token
and a match. -/
def failedEnvelopeWithCursor : SearchResponse :=
  { ok := false, messages := some { «matches» := some [{}] },
    response_metadata := some { next_cursor := some "tok" } }

/-- A raw match whose channel is delivered as the bare string identifier
`"C222"`. -/
def bareStringChannelMatch : RawMatch :=
  { text := .str "hello", user := .str "U1", channel := .str "C222", ts := .str "1699.0" }

/-! ## Shared lemmas about the Query Translator -/

/-- The sequential string accumulation of `buildSearchQuery` equals the
spec-side fixed-order clause list joined onto the query text. -/
theorem buildSearchQuery_eq_specTranslate (p : SlackSearchParams) (ch : Option String) :
    buildSearchQuery p ch = specTranslate p ch := by
  simp only [buildSearchQuery, specTranslate, specClauses]
  cases hf : strTruthy p.fromDate <;> cases ht : strTruthy p.toDate <;>
    cases hu : strTruthy p.userId <;> cases hr : boolTruthy p.hasReactions <;>
    cases hh : boolTruthy p.hasThreads <;> cases hc : strTruthy ch <;>
    simp [String.join, String.append_assoc, -String.reduceAppend]

/-- When the reactions filter is truthy the translated query splits around the
`has:reaction` clause. -/
theorem buildSearchQuery_reaction_decomp (p : SlackSearchParams) (ch : Option String)
    (h : boolTruthy p.hasReactions = true) :
    buildSearchQuery p ch = queryPrefix3 p ++ " has:reaction" ++ suffixAfterReaction p ch := by
  simp only [buildSearchQuery, queryPrefix3, suffixAfterReaction, h]
  cases hh : boolTruthy p.hasThreads <;> cases hc : strTruthy ch <;>
    simp [String.append_assoc, -String.reduceAppend]

/-- When the threads filter is truthy the translated query splits around the
`has:thread` clause. -/
theorem buildSearchQuery_thread_decomp (p : SlackSearchParams) (ch : Option String)
    (h : boolTruthy p.hasThreads = true) :
    buildSearchQuery p ch =
      (queryPrefix3 p ++ (if boolTruthy p.hasReactions then " has:reaction" else "")) ++
        " has:thread" ++ suffixAfterThread ch := by
  simp only [buildSearchQuery, queryPrefix3, suffixAfterThread, h]
  cases hr : boolTruthy p.hasReactions <;> cases hc : strTruthy ch <;>
    simp [String.append_assoc, -String.reduceAppend]

/-! ## Claim theorems -/

/-- Claim C1: for every Filter Model, the Query Translator produces exactly the
literal query text followed by one space-prefixed clause per present filter in
the fixed order `after`, `before`, `from`, `has:reaction`, `has:thread`, and
(channel scope only) `in` appended last, with operands inserted verbatim and
independent of input field order (the Filter Model is a record, so supply
order cannot be observed); presence of a string operand means supplied and
non-empty, as §4.2 implements it. Scenarios B and C are instantiated
literally. -/
theorem claim_query_translator_fixed_order :
    (∀ (p : SlackSearchParams) (ch : Option String),
      buildSearchQuery p ch = specTranslate p ch) ∧
    buildSearchQuery
      { query := "test", fromDate := some "2024-01-01", toDate := some "2024-12-31",
        userId := some "U123", hasReactions := some true, hasThreads := some true } none =
      "test after:2024-01-01 before:2024-12-31 from:U123 has:reaction has:thread" ∧
    buildSearchQuery
      { query := "urgent", userId := some "U789", hasReactions := some true }
      (some "C456") =
      "urgent from:U789 has:reaction in:C456" :=
  ⟨buildSearchQuery_eq_specTranslate, rfl, rfl⟩

/-- Claim C7: an explicit `hasReactions := false` translates to exactly the
same query string as omitting the field, and likewise for `hasThreads`; an
explicit `true` emits the corresponding clause inside the output. -/
theorem claim_false_filter_equals_omitted :
    (∀ (p : SlackSearchParams) (ch : Option String),
      buildSearchQuery { p with hasReactions := some false } ch =
        buildSearchQuery { p with hasReactions := none } ch) ∧
    (∀ (p : SlackSearchParams) (ch : Option String),
      buildSearchQuery { p with hasThreads := some false } ch =
        buildSearchQuery { p with hasThreads := none } ch) ∧
    (∀ (p : SlackSearchParams) (ch : Option String), ∃ a b,
      buildSearchQuery { p with hasReactions := some true } ch = a ++ " has:reaction" ++ b) ∧
    (∀ (p : SlackSearchParams) (ch : Option String), ∃ a b,
      buildSearchQuery { p with hasThreads := some true } ch = a ++ " has:thread" ++ b) := by
  refine ⟨fun p ch => rfl, fun p ch => rfl, fun p ch => ?_, fun p ch => ?_⟩
  · exact ⟨queryPrefix3 { p with hasReactions := some true },
      suffixAfterReaction { p with hasReactions := some true } ch,
      buildSearchQuery_reaction_decomp _ ch rfl⟩
  · exact ⟨queryPrefix3 { p with hasThreads := some true } ++
        (if boolTruthy p.hasReactions then " has:reaction" else ""),
      suffixAfterThread ch,
      buildSearchQuery_thread_decomp _ ch rfl⟩

/-- Claim C10: a string filter supplied as the empty string translates exactly
like the absent filter (empty operands emit no clause), and the validator
accepts empty strings for `from_date`, `to_date` and `user_id`. -/
theorem claim_empty_string_filter_no_clause :
    (∀ (p : SlackSearchParams) (ch : Option String),
      buildSearchQuery { p with fromDate := some "" } ch =
        buildSearchQuery { p with fromDate := none } ch) ∧
    (∀ (p : SlackSearchParams) (ch : Option String),
      buildSearchQuery { p with toDate := some "" } ch =
        buildSearchQuery { p with toDate := none } ch) ∧
    (∀ (p : SlackSearchParams) (ch : Option String),
      buildSearchQuery { p with userId := some "" } ch =
        buildSearchQuery { p with userId := none } ch) ∧
    (parseSearchMessages
      { query := some "q", from_date := some "", to_date := some "",
        user_id := some "" }).isSome = true := by
  refine ⟨fun p ch => ?_, fun p ch => ?_, fun p ch => ?_, by decide⟩ <;>
    simp [buildSearchQuery, strTruthy]

/-- Claim C2: the Result Normalizer is total — evaluating the mapping under JS
semantics never reaches a throwing property access, whatever combination of
present, absent or null fields the raw match carries — and a match with every
field nullish maps to the record with all four fields empty; the canonical
record cannot hold null or undefined since its fields are plain strings. -/
theorem claim_normalizer_total_never_throws :
    (∀ m : RawMatch, normalizeMatchJs m = .ok (normalizeMatchTotal m)) ∧
    (∀ m : RawMatch, m.text.isNullish = true → m.user.isNullish = true →
      m.channel.isNullish = true → m.ts.isNullish = true →
      normalizeMatchTotal m = { text := "", author := "", channel := "", timestamp := "" }) := by
  constructor
  · intro m
    obtain ⟨t, u, c, ts⟩ := m
    cases c <;> rfl
  · intro m h1 h2 h3 h4
    obtain ⟨t, u, c, ts⟩ := m
    cases t <;> cases u <;> cases c <;> cases ts <;>
      simp_all [JsStrVal.isNullish, RawChannel.isNullish, normalizeMatchTotal,
        normalizeChannelTotal, jsCoalesce]

/-- Witness for C2: the all-nullish match normalizes, without error, to the
all-empty record. -/
theorem claim_normalizer_total_never_throws_witness :
    normalizeMatchJs { text := .nullv, user := .absent, channel := .nullv, ts := .absent } =
      .ok { text := "", author := "", channel := "", timestamp := "" } := by
  have h1 := claim_normalizer_total_never_throws.1
    { text := .nullv, user := .absent, channel := .nullv, ts := .absent }
  have h2 := claim_normalizer_total_never_throws.2
    { text := .nullv, user := .absent, channel := .nullv, ts := .absent } rfl rfl rfl rfl
  rw [h1, h2]

/-- Counterexample to C3 as stated: a match whose channel arrives as the bare
string `"C222"` normalizes to an empty channel, not to the identifier. -/
theorem claim_channel_bare_string_counterexample :
    (normalizeMatchTotal bareStringChannelMatch).channel = "" ∧
    ¬ (normalizeMatchTotal bareStringChannelMatch).channel = "C222" :=
  ⟨rfl, by decide⟩

/-- Claim C3 amended: the Normalizer extracts the identifier only when the
channel arrives as a non-null object carrying an `id`; a bare string channel,
like an absent, null or id-less channel, maps to the empty string. -/
theorem claim_channel_extraction_object_only :
    (∀ s : String, normalizeChannelTotal (.str s) = "") ∧
    (∀ id : String, normalizeChannelTotal (.obj (some id)) = id) ∧
    normalizeChannelTotal (.obj none) = "" ∧
    normalizeChannelTotal .nullv = "" ∧
    normalizeChannelTotal .absent = "" ∧
    (∀ m : RawMatch, (normalizeMatchTotal m).channel = normalizeChannelTotal m.channel) :=
  ⟨fun _ => rfl, fun _ => rfl, rfl, rfl, rfl, fun _ => rfl⟩

/-- Claim C4: a failed envelope (`ok: false`) or one with no `messages`
collection yields the empty result set with no cursor, the same outward value
as a successful envelope with zero matches — provider failure is not an
error to the caller. -/
theorem claim_failure_collapsed_to_empty :
    (∀ r : SearchResponse, r.ok = false ∨ r.messages = none →
      executeSearch r = { results := [], nextCursor := none }) ∧
    executeSearch { ok := true, messages := some { «matches» := some [] } } =
      { results := [], nextCursor := none } ∧
    executeSearch { ok := false } =
      executeSearch { ok := true, messages := some { «matches» := some [] } } := by
  refine ⟨?_, rfl, rfl⟩
  rintro ⟨ok, msgs, md⟩ (h | h) <;> subst h <;> simp [executeSearch]

/-- Witness for C4: a failed envelope still carrying a match and a cursor is
collapsed to the empty, cursorless result set. -/
theorem claim_failure_collapsed_to_empty_witness :
    executeSearch failedEnvelopeWithCursor = { results := [], nextCursor := none } :=
  claim_failure_collapsed_to_empty.1 failedEnvelopeWithCursor (Or.inl rfl)

/-- Counterexample to C5 as stated: this failed envelope carries the
continuation token `"tok"`, yet the returned result set has no `nextCursor`,
so presence of the output cursor is not equivalent to the envelope carrying a
token. -/
theorem claim_cursor_iff_counterexample :
    failedEnvelopeWithCursor.response_metadata.bind ResponseMetadata.next_cursor = some "tok" ∧
    (executeSearch failedEnvelopeWithCursor).nextCursor = none :=
  ⟨rfl, rfl⟩

/-- Claim C5 amended: `nextCursor` is populated with `t` iff the envelope was
successful (ok with a `messages` collection) and carried the non-empty
continuation token `t`; otherwise the key is omitted from the serialized
object entirely, never emitted as null or as an empty string. -/
theorem claim_cursor_present_iff_success_token :
    (∀ (r : SearchResponse) (t : String),
      (executeSearch r).nextCursor = some t ↔
        r.ok = true ∧ r.messages.isSome = true ∧
        r.response_metadata.bind ResponseMetadata.next_cursor = some t ∧ t ≠ "") ∧
    (∀ res : SlackSearchResult, "nextCursor" ∈ resultJsonKeys res ↔ res.nextCursor.isSome = true) := by
  constructor
  · rintro ⟨ok, msgs, md⟩ t
    cases ok <;> rcases msgs with _ | ⟨mts⟩
    · simp [executeSearch]
    · simp [executeSearch]
    · simp [executeSearch]
    · rcases md with _ | ⟨nc⟩
      · simp [executeSearch, strTruthy]
      · rcases nc with _ | ⟨s⟩
        · simp [executeSearch, strTruthy]
        · by_cases hs : s = ""
          · simp [executeSearch, strTruthy, hs, eq_comm]
          · have hcur : (executeSearch
                { ok := true, messages := some mts,
                  response_metadata := some { next_cursor := some s } }).nextCursor = some s := by
              simp [executeSearch, strTruthy, hs]
            rw [hcur]
            simp only [Option.some_bind, Option.some.injEq, Option.isSome_some, ne_eq,
              true_and]
            constructor
            · intro h
              subst h
              exact ⟨rfl, hs⟩
            · exact fun h => h.1
  · rintro ⟨results, nc⟩
    rcases nc with _ | ⟨c⟩ <;> simp [resultJsonKeys]

/-- Claim C6: the Validator accepts limits 1 and 100, rejects 0, 101 and
every non-integer number, and an omitted limit reaches the Gateway call as
page size 20 on both tools. -/
theorem claim_limit_range_and_default :
    (parseSearchMessages { query := some "test", limit := some 1 }).isSome = true ∧
    (parseSearchMessages { query := some "test", limit := some 100 }).isSome = true ∧
    parseSearchMessages { query := some "test", limit := some 0 } = none ∧
    parseSearchMessages { query := some "test", limit := some 101 } = none ∧
    (∀ (p : RawPayload) (q : ℚ), q.den ≠ 1 →
      parseSearchMessages { p with limit := some q } = none) ∧
    (∀ p : SlackSearchParams, p.limit = none → (searchMessagesRequest p).count = 20) ∧
    (∀ p : SlackChannelSearchParams, p.limit = none → (searchInChannelRequest p).count = 20) := by
  refine ⟨by decide, by decide, by decide, by decide, ?_, ?_, ?_⟩
  · intro p q h
    rcases hq : p.query with _ | s
    · simp [parseSearchMessages, hq]
    · simp [parseSearchMessages, hq, validLimit, h]
  · intro p h
    simp [searchMessagesRequest, executeSearchArgs, h]
  · intro p h
    simp [searchInChannelRequest, executeSearchArgs, h]

/-- Witness for C6: the non-integer limit 50.5 is rejected, and omitted limits
produce page size 20 on both tools. -/
theorem claim_limit_range_and_default_witness :
    parseSearchMessages { query := some "test", limit := some nonIntegerLimit } = none ∧
    (searchMessagesRequest { query := "test" }).count = 20 ∧
    (searchInChannelRequest { query := "test", channelId := "C1" }).count = 20 :=
  ⟨claim_limit_range_and_default.2.2.2.2.1 { query := some "test" } nonIntegerLimit (by decide),
   claim_limit_range_and_default.2.2.2.2.2.1 { query := "test" } rfl,
   claim_limit_range_and_default.2.2.2.2.2.2 { query := "test", channelId := "C1" } rfl⟩

/-- Claim C8: unrecognized payload fields change nothing about validation
(zod strips them instead of failing), and the Scenario A payload with an
`exclude_bots` key validates and translates to exactly `"bug fix"`. -/
theorem claim_unrecognized_fields_ignored :
    (∀ (p : RawPayload) (es : List String),
      parseSearchMessages { p with extra := es } = parseSearchMessages { p with extra := [] }) ∧
    parseSearchMessages { query := some "bug fix", extra := ["exclude_bots"] } =
      some { query := "bug fix" } ∧
    buildSearchQuery (toSlackSearchParams { query := "bug fix" }) none = "bug fix" :=
  ⟨fun p es => rfl, by decide, rfl⟩

/-- Claim C9: the Validator accepts an empty-string cursor, and the outbound
call's argument object carries a `cursor` key iff the supplied cursor is
present and non-empty — an empty-string cursor is omitted exactly like an
absent one. -/
theorem claim_empty_cursor_omitted :
    parseSearchMessages { query := some "q", cursor := some "" } =
      some { query := "q", cursor := some "" } ∧
    (∀ (q : String) (l : Option Int),
      executeSearchArgs q l (some "") = executeSearchArgs q l none) ∧
    (∀ (q : String) (l : Option Int) (c : Option String) (s : String),
      (executeSearchArgs q l c).cursor = some s ↔ c = some s ∧ s ≠ "") := by
  refine ⟨by decide, fun q l => rfl, ?_⟩
  intro q l c s
  rcases c with _ | ⟨x⟩
  · simp [executeSearchArgs, strTruthy]
  · by_cases hx : x = ""
    · simp [executeSearchArgs, strTruthy, hx, eq_comm]
    · have hcur : (executeSearchArgs q l (some x)).cursor = some x := by
        simp [executeSearchArgs, strTruthy, hx]
      rw [hcur]
      constructor
      · intro h
        injection h with h
        subst h
        exact ⟨rfl, hx⟩
      · exact fun h => h.1

end Tarantella
